import Mathlib

/-!
Verification of the Great Hammerhead Von Bertalanffy age-estimation pipeline
(`Great_Hammerhead_Shark_Age_Calculation.ipynb`).

The notebook's numeric values are embedded as real numbers.  A Python/NumPy
float that is `nan` (or an infinity filtered to `nan` by the code) is
represented as `none : Option ℝ`; a finite float value `v` is `some v`.
A pandas DataFrame is a list of named numeric columns plus a `Sex` column;
a column access that raises `KeyError` is an `Except.error`.
-/

noncomputable section

/-- Embeds `calculate_male_age` (L8 = 264.2, b = 50, k = 0.16; the notebook
never overrides the default parameters).  NumPy's `np.log` of a non-positive
argument yields `nan` (argument < 0) or `-inf` (argument = 0); the following
`if Age <= 0 or np.isinf(Age) or np.isnan(Age)` filter turns both, and any
non-positive finite age, into `nan` (= `none` here).  On a positive log
argument the real-valued result is finite, so only the `Age <= 0` test
remains. -/
def calculate_male_age (Lt : ℝ) : Option ℝ :=
  if (1 / 50 : ℝ) * (1 - Lt / 264.2) ≤ 0 then none
  else if Real.log ((1 / 50) * (1 - Lt / 264.2)) / (-0.16) ≤ 0 then none
  else some (Real.log ((1 / 50) * (1 - Lt / 264.2)) / (-0.16))

/-- Embeds `calculate_female_age` (L8 = 323.9, b = 50, k = 0.11), with the
same `nan`/`inf` filtering as `calculate_male_age`. -/
def calculate_female_age (Lt : ℝ) : Option ℝ :=
  if (1 / 50 : ℝ) * (1 - Lt / 323.9) ≤ 0 then none
  else if Real.log ((1 / 50) * (1 - Lt / 323.9)) / (-0.11) ≤ 0 then none
  else some (Real.log ((1 / 50) * (1 - Lt / 323.9)) / (-0.11))

/-- Embeds `correction_coefficient`: the hardcoded regression slope and
intercept applied to an uncorrected VB age. -/
def correction_coefficient (m : ℝ) : ℝ :=
  m * 0.5910115884370238 - 16.971951358327846

/-- A pandas DataFrame restricted to what the notebook touches: the numeric
columns by name (a cell is `none` when the stored float is `nan`) and the
`Sex` column (`none` for a `nan` sex).  Column order is immaterial to the
modelled behaviour. -/
structure Frame where
  numCols : List (String × List (Option ℝ))
  sexCol : List (Option String)

/-- Label lookup among the numeric columns. -/
def lookupCol : String → List (String × List (Option ℝ)) → Option (List (Option ℝ))
  | _, [] => none
  | c, (c', v) :: t => if c = c' then some v else lookupCol c t

/-- Remove a column by name (used when an assignment overwrites it). -/
def delCol : String → List (String × List (Option ℝ)) → List (String × List (Option ℝ))
  | _, [] => []
  | c, (c', v) :: t => if c = c' then delCol c t else (c', v) :: delCol c t

/-- Column assignment `df[c] = col`. -/
def setCol (df : Frame) (c : String) (col : List (Option ℝ)) : Frame :=
  ⟨(c, col) :: delCol c df.numCols, df.sexCol⟩

/-- Column read `df[c]`: raises `KeyError` when the label is absent. -/
def getCol (df : Frame) (c : String) : Except String (List (Option ℝ)) :=
  match lookupCol c df.numCols with
  | some col => .ok col
  | none => .error ("KeyError: " ++ c)

/-- Scalar read `row[c]` for the row at index `i`. -/
def getCell (df : Frame) (c : String) (i : Nat) : Except String (Option ℝ) :=
  match getCol df c with
  | .ok col => .ok (col[i]?.join)
  | .error e => .error e

/-- Embeds the cell `Impute Missing Fork Length Values`:
`if 'FL (mm)' not in Adult_specimens.columns:` then
`Adult_specimens['FL (mm)'] = (Adult_specimens['TL (mm)'] - 3.472) / 1.2533`.
The test is on the presence of the column, not on individual cells; a `nan`
in `TL (mm)` propagates to a `nan` in `FL (mm)`. -/
def imputeFL (df : Frame) : Except String Frame :=
  match lookupCol "FL (mm)" df.numCols with
  | some _ => .ok df
  | none =>
    match lookupCol "TL (mm)" df.numCols with
    | some tl =>
      .ok (setCol df "FL (mm)" (tl.map (Option.map (fun t => (t - 3.472) / 1.2533))))
    | none => .error ("KeyError: " ++ "TL (mm)")

/-- Embeds `calculate_age(row)` for the row at index `i`: dispatch on
`row['Sex']` and evaluate the sex-specific estimator on `row['FL (cm)']`.
A `nan` sex compares unequal to both strings, and a `nan` fork length gives a
`nan` age (`Option.bind`). -/
def calculate_age (df : Frame) (i : Nat) : Except String (Option ℝ) :=
  match (df.sexCol[i]?).join with
  | some s =>
    if s = "Male" then
      match getCell df "FL (cm)" i with
      | .ok fl => .ok (fl.bind calculate_male_age)
      | .error e => .error e
    else if s = "Female" then
      match getCell df "FL (cm)" i with
      | .ok fl => .ok (fl.bind calculate_female_age)
      | .error e => .error e
    else .ok none
  | none => .ok none

/-- The row loop of `Adult_specimens.apply(calculate_age, axis=1)` over the
given row indices; the first raised `KeyError` aborts the whole apply. -/
def computeAges (df : Frame) : List Nat → Except String (List (Option ℝ))
  | [] => .ok []
  | i :: is =>
    match calculate_age df i with
    | .error e => .error e
    | .ok a =>
      match computeAges df is with
      | .error e => .error e
      | .ok rest => .ok (a :: rest)

/-- Embeds `Adult_specimens['Modified VB Age'] = Adult_specimens.apply(calculate_age, axis=1)`. -/
def applyAges (df : Frame) : Except String Frame :=
  match computeAges df (List.range df.sexCol.length) with
  | .ok col => .ok (setCol df "Modified VB Age" col)
  | .error e => .error e

/-- Embeds `Adult_specimens['Age Corrected Proxy'] =
Adult_specimens['Modified VB Age'].apply(correction_coefficient)`.  The float
affine map `m * slope - intercept` sends `nan` to `nan`, hence `Option.map`. -/
def applyCorrection (df : Frame) : Except String Frame :=
  match getCol df "Modified VB Age" with
  | .ok col =>
    .ok (setCol df "Age Corrected Proxy" (col.map (Option.map correction_coefficient)))
  | .error e => .error e

/-- The notebook's computation cells in order: impute fork lengths, compute
uncorrected VB ages, apply the correction (the CSV export is out of scope). -/
def pipeline (df : Frame) : Except String Frame :=
  match imputeFL df with
  | .error e => .error e
  | .ok df1 =>
    match applyAges df1 with
    | .error e => .error e
    | .ok df2 => applyCorrection df2

/-- Embeds the `sklearn.linear_model.LinearRegression` fit of
`model.fit(Vb_age_array, Vertebral_age_array)`: ordinary least squares of
`y` (vertebral age) against `x` (uncorrected VB age), returning
`(slope, intercept)`.  With the intercept fitted, sklearn solves the centred
least-squares problem by `lstsq`; on a zero-variance design matrix the
minimum-norm solution is the zero coefficient, so the fit silently returns
slope `0` and intercept the mean of `y` rather than raising. -/
def linfit (pts : List (ℝ × ℝ)) : ℝ × ℝ :=
  let n : ℝ := pts.length
  let xbar := (pts.map Prod.fst).sum / n
  let ybar := (pts.map Prod.snd).sum / n
  let sxx := (pts.map (fun p => (p.1 - xbar) ^ 2)).sum
  let sxy := (pts.map (fun p => (p.1 - xbar) * (p.2 - ybar))).sum
  if sxx = 0 then (0, ybar) else (sxy / sxx, ybar - sxy / sxx * xbar)

/-- Degree-8 Taylor polynomial of `exp` at `0`, used for numeric bounds. -/
def expT9 (f : ℝ) : ℝ :=
  1 + f + f ^ 2 / 2 + f ^ 3 / 6 + f ^ 4 / 24 + f ^ 5 / 120 + f ^ 6 / 720
    + f ^ 7 / 5040 + f ^ 8 / 40320

/-- A one-row frame whose `FL (mm)` column exists but holds a missing value
while `TL (mm)` is present. -/
def dfC3 : Frame :=
  ⟨[("FL (mm)", [none]), ("TL (mm)", [some 369.4])], [some "Female"]⟩

/-- A one-row frame supplying only `Sex` and a total-length column, the
minimal schema the spec admits. -/
def dfC4 : Frame :=
  ⟨[("TL (mm)", [some 369.4])], [some "Female"]⟩

/-- A one-row frame with an unrecognized sex and a missing uncorrected age. -/
def df6 : Frame :=
  ⟨[("Modified VB Age", [none])], [some "unknown"]⟩

/-- The frame `df6` after the correction cell. -/
def df6c : Frame :=
  ⟨[("Age Corrected Proxy", [none]), ("Modified VB Age", [none])], [some "unknown"]⟩

/-- A one-row frame with uncorrected VB age `0`. -/
def df10 : Frame :=
  ⟨[("Modified VB Age", [some 0])], [some "Female"]⟩

/-- The frame `df10` after the correction cell. -/
def df10c : Frame :=
  ⟨[("Age Corrected Proxy", [some (correction_coefficient 0)]),
    ("Modified VB Age", [some 0])], [some "Female"]⟩

end

/-! ## Helper lemmas -/

theorem male_age_some (Lt : ℝ) (h1 : 0 < (1 / 50 : ℝ) * (1 - Lt / 264.2))
    (h2 : (1 / 50 : ℝ) * (1 - Lt / 264.2) < 1) :
    calculate_male_age Lt = some (Real.log ((1 / 50) * (1 - Lt / 264.2)) / (-0.16)) ∧
      0 < Real.log ((1 / 50) * (1 - Lt / 264.2)) / (-0.16) := by
  have hlog : Real.log ((1 / 50) * (1 - Lt / 264.2)) < 0 := Real.log_neg h1 h2
  have hpos : 0 < Real.log ((1 / 50) * (1 - Lt / 264.2)) / (-0.16) :=
    div_pos_iff.mpr (Or.inr ⟨hlog, by norm_num⟩)
  refine ⟨?_, hpos⟩
  unfold calculate_male_age
  rw [if_neg (not_le.mpr h1), if_neg (not_le.mpr hpos)]

theorem female_age_some (Lt : ℝ) (h1 : 0 < (1 / 50 : ℝ) * (1 - Lt / 323.9))
    (h2 : (1 / 50 : ℝ) * (1 - Lt / 323.9) < 1) :
    calculate_female_age Lt = some (Real.log ((1 / 50) * (1 - Lt / 323.9)) / (-0.11)) ∧
      0 < Real.log ((1 / 50) * (1 - Lt / 323.9)) / (-0.11) := by
  have hlog : Real.log ((1 / 50) * (1 - Lt / 323.9)) < 0 := Real.log_neg h1 h2
  have hpos : 0 < Real.log ((1 / 50) * (1 - Lt / 323.9)) / (-0.11) :=
    div_pos_iff.mpr (Or.inr ⟨hlog, by norm_num⟩)
  refine ⟨?_, hpos⟩
  unfold calculate_female_age
  rw [if_neg (not_le.mpr h1), if_neg (not_le.mpr hpos)]

theorem male_age_none (Lt : ℝ) (h : (1 / 50 : ℝ) * (1 - Lt / 264.2) ≤ 0) :
    calculate_male_age Lt = none := by
  unfold calculate_male_age
  rw [if_pos h]

theorem female_age_none (Lt : ℝ) (h : (1 / 50 : ℝ) * (1 - Lt / 323.9) ≤ 0) :
    calculate_female_age Lt = none := by
  unfold calculate_female_age
  rw [if_pos h]

/-! ## Claims C1 and C2 -/

/-- C1: for each sex, every fork length strictly between 0 and the
sex-specific asymptotic length yields a defined (non-missing) age equal to
`ln((1/b) * (1 - FL/L8)) / (-k)`, and that age is positive. -/
theorem vb_estimator_in_domain (FL : ℝ) (h0 : 0 < FL) :
    (FL < 264.2 →
      calculate_male_age FL = some (Real.log ((1 / 50) * (1 - FL / 264.2)) / (-0.16)) ∧
        0 < Real.log ((1 / 50) * (1 - FL / 264.2)) / (-0.16)) ∧
    (FL < 323.9 →
      calculate_female_age FL = some (Real.log ((1 / 50) * (1 - FL / 323.9)) / (-0.11)) ∧
        0 < Real.log ((1 / 50) * (1 - FL / 323.9)) / (-0.11)) := by
  constructor
  · intro hm
    have e : (264.2 : ℝ) = 2642 / 10 := by norm_num
    exact male_age_some FL (by rw [e] at hm ⊢; linarith) (by rw [e]; linarith)
  · intro hf
    have e : (323.9 : ℝ) = 3239 / 10 := by norm_num
    exact female_age_some FL (by rw [e] at hf ⊢; linarith) (by rw [e]; linarith)

/-- C1 witness at FL = 100. -/
theorem vb_estimator_in_domain_witness :
    (0 : ℝ) < 100 ∧ (100 : ℝ) < 264.2 ∧ (100 : ℝ) < 323.9 ∧
      calculate_male_age 100 = some (Real.log ((1 / 50) * (1 - 100 / 264.2)) / (-0.16)) ∧
      calculate_female_age 100 = some (Real.log ((1 / 50) * (1 - 100 / 323.9)) / (-0.11)) :=
  ⟨by norm_num, by norm_num, by norm_num,
    ((vb_estimator_in_domain 100 (by norm_num)).1 (by norm_num)).1,
    ((vb_estimator_in_domain 100 (by norm_num)).2 (by norm_num)).1⟩

/-- C2: at or beyond the sex-specific asymptotic length the estimator returns
the missing marker, and for every real fork length it returns either the
missing marker or a finite positive age — it never yields anything else (the
embedding is a total function, so no exception or warning surfaces). -/
theorem vb_estimator_beyond_asymptote (FL : ℝ) :
    (264.2 ≤ FL → calculate_male_age FL = none) ∧
    (323.9 ≤ FL → calculate_female_age FL = none) ∧
    (calculate_male_age FL = none ∨
      ∃ a, calculate_male_age FL = some a ∧ 0 < a) ∧
    (calculate_female_age FL = none ∨
      ∃ a, calculate_female_age FL = some a ∧ 0 < a) := by
  refine ⟨fun hm => male_age_none FL ?_, fun hf => female_age_none FL ?_, ?_, ?_⟩
  · have e : (264.2 : ℝ) = 2642 / 10 := by norm_num
    rw [e] at hm ⊢; linarith
  · have e : (323.9 : ℝ) = 3239 / 10 := by norm_num
    rw [e] at hf ⊢; linarith
  · unfold calculate_male_age
    split_ifs with h1 h2
    · exact Or.inl rfl
    · exact Or.inl rfl
    · exact Or.inr ⟨_, rfl, not_le.mp h2⟩
  · unfold calculate_female_age
    split_ifs with h1 h2
    · exact Or.inl rfl
    · exact Or.inl rfl
    · exact Or.inr ⟨_, rfl, not_le.mp h2⟩

/-- C2 witness at FL = 400, beyond both asymptotic lengths. -/
theorem vb_estimator_beyond_asymptote_witness :
    (264.2 : ℝ) ≤ 400 ∧ (323.9 : ℝ) ≤ 400 ∧
      calculate_male_age 400 = none ∧ calculate_female_age 400 = none :=
  ⟨by norm_num, by norm_num,
    (vb_estimator_beyond_asymptote 400).1 (by norm_num),
    (vb_estimator_beyond_asymptote 400).2.1 (by norm_num)⟩

/-! ## Numeric bounds on the exponential, for the concrete scenarios -/

theorem sum_range_nine (f : ℝ) :
    (∑ m in Finset.range 9, f ^ m / (m.factorial : ℝ)) = expT9 f := by
  rw [Finset.sum_range_succ, Finset.sum_range_succ, Finset.sum_range_succ,
    Finset.sum_range_succ, Finset.sum_range_succ, Finset.sum_range_succ,
    Finset.sum_range_succ, Finset.sum_range_succ, Finset.sum_range_succ,
    Finset.sum_range_zero]
  norm_num [Nat.factorial, expT9]

theorem exp_taylor_lb (f : ℝ) (h0 : 0 ≤ f) (h1 : f ≤ 1) :
    expT9 f - f ^ 9 * (10 / 3265920) ≤ Real.exp f := by
  have h := Real.exp_bound (show |f| ≤ 1 by rwa [abs_of_nonneg h0])
    (show (0 : ℕ) < 9 by norm_num)
  rw [abs_of_nonneg h0, sum_range_nine] at h
  have h2 := (abs_le.mp h).1
  norm_num [Nat.factorial] at h2 ⊢
  linarith

theorem exp_taylor_ub (f : ℝ) (h0 : 0 ≤ f) (h1 : f ≤ 1) :
    Real.exp f ≤ expT9 f + f ^ 9 * (10 / 3265920) := by
  have h := Real.exp_bound' h0 h1 (show (0 : ℕ) < 9 by norm_num)
  rw [sum_range_nine] at h
  norm_num [Nat.factorial] at h ⊢
  linarith

theorem exp_npf_ub (n : ℕ) (f : ℝ) (h0 : 0 ≤ f) (h1 : f ≤ 1) :
    Real.exp (n + f) ≤ 2.7182818286 ^ n * (expT9 f + f ^ 9 * (10 / 3265920)) := by
  rw [Real.exp_add]
  have he : Real.exp (n : ℝ) = Real.exp 1 ^ n := by
    rw [← Real.exp_nat_mul, mul_one]
  rw [he]
  exact mul_le_mul (pow_le_pow_left₀ (Real.exp_pos 1).le Real.exp_one_lt_d9.le n)
    (exp_taylor_ub f h0 h1) (Real.exp_pos f).le (by positivity)

theorem exp_npf_lb (n : ℕ) (f : ℝ) (h0 : 0 ≤ f) (h1 : f ≤ 1)
    (hT : 0 ≤ expT9 f - f ^ 9 * (10 / 3265920)) :
    2.7182818283 ^ n * (expT9 f - f ^ 9 * (10 / 3265920)) ≤ Real.exp (n + f) := by
  rw [Real.exp_add]
  have he : Real.exp (n : ℝ) = Real.exp 1 ^ n := by
    rw [← Real.exp_nat_mul, mul_one]
  rw [he]
  exact mul_le_mul (pow_le_pow_left₀ (by norm_num) Real.exp_one_gt_d9.le n)
    (exp_taylor_lb f h0 h1) hT (pow_nonneg (Real.exp_pos 1).le n)

theorem log_50_bounds : 3.9104 < Real.log 50 ∧ Real.log 50 < 3.9136 := by
  constructor
  · rw [Real.lt_log_iff_exp_lt (by norm_num : (0 : ℝ) < 50)]
    rw [show (3.9104 : ℝ) = ((3 : ℕ) : ℝ) + 0.9104 by norm_num]
    refine lt_of_le_of_lt (exp_npf_ub 3 0.9104 (by norm_num) (by norm_num)) ?_
    norm_num [expT9]
  · rw [Real.log_lt_iff_lt_exp (by norm_num : (0 : ℝ) < 50)]
    rw [show (3.9136 : ℝ) = ((3 : ℕ) : ℝ) + 0.9136 by norm_num]
    refine lt_of_lt_of_le ?_
      (exp_npf_lb 3 0.9136 (by norm_num) (by norm_num) (by norm_num [expT9]))
    norm_num [expT9]

theorem log_arg292_bounds :
    -6.22985198 < Real.log (319 / 161950) ∧ Real.log (319 / 161950) < -6.22985176 := by
  constructor
  · rw [Real.lt_log_iff_exp_lt (by norm_num : (0 : ℝ) < 319 / 161950), Real.exp_neg,
      inv_lt_comm₀ (Real.exp_pos _) (by norm_num : (0 : ℝ) < 319 / 161950),
      show ((319 : ℝ) / 161950)⁻¹ = 161950 / 319 by norm_num,
      show (6.22985198 : ℝ) = ((6 : ℕ) : ℝ) + 0.22985198 by norm_num]
    refine lt_of_lt_of_le ?_
      (exp_npf_lb 6 0.22985198 (by norm_num) (by norm_num) (by norm_num [expT9]))
    norm_num [expT9]
  · rw [Real.log_lt_iff_lt_exp (by norm_num : (0 : ℝ) < 319 / 161950), Real.exp_neg,
      lt_inv_comm₀ (by norm_num : (0 : ℝ) < 319 / 161950) (Real.exp_pos _),
      show ((319 : ℝ) / 161950)⁻¹ = 161950 / 319 by norm_num,
      show (6.22985176 : ℝ) = ((6 : ℕ) : ℝ) + 0.22985176 by norm_num]
    refine lt_of_le_of_lt (exp_npf_ub 6 0.22985176 (by norm_num) (by norm_num)) ?_
    norm_num [expT9]

theorem log_arg243_bounds :
    -5.29924417 < Real.log (809 / 161950) ∧ Real.log (809 / 161950) < -5.29924395 := by
  constructor
  · rw [Real.lt_log_iff_exp_lt (by norm_num : (0 : ℝ) < 809 / 161950), Real.exp_neg,
      inv_lt_comm₀ (Real.exp_pos _) (by norm_num : (0 : ℝ) < 809 / 161950),
      show ((809 : ℝ) / 161950)⁻¹ = 161950 / 809 by norm_num,
      show (5.29924417 : ℝ) = ((5 : ℕ) : ℝ) + 0.29924417 by norm_num]
    refine lt_of_lt_of_le ?_
      (exp_npf_lb 5 0.29924417 (by norm_num) (by norm_num) (by norm_num [expT9]))
    norm_num [expT9]
  · rw [Real.log_lt_iff_lt_exp (by norm_num : (0 : ℝ) < 809 / 161950), Real.exp_neg,
      lt_inv_comm₀ (by norm_num : (0 : ℝ) < 809 / 161950) (Real.exp_pos _),
      show ((809 : ℝ) / 161950)⁻¹ = 161950 / 809 by norm_num,
      show (5.29924395 : ℝ) = ((5 : ℕ) : ℝ) + 0.29924395 by norm_num]
    refine lt_of_le_of_lt (exp_npf_ub 5 0.29924395 (by norm_num) (by norm_num)) ?_
    norm_num [expT9]

/-! ## Frame lemmas and claims C3, C4, C6, C10 -/

theorem getCol_setCol_self (df : Frame) (c : String) (col : List (Option ℝ)) :
    getCol (setCol df c col) c = .ok col := by
  simp [getCol, setCol, lookupCol]

theorem option_join_map {α β : Type} (o : Option (Option α)) (f : α → β) :
    (o.map (Option.map f)).join = o.join.map f := by
  cases o <;> rfl

theorem applyCorrection_cell (df df2 : Frame) (i : Nat) (o : Option ℝ)
    (hAC : applyCorrection df = .ok df2)
    (hCell : getCell df "Modified VB Age" i = .ok o) :
    getCell df2 "Age Corrected Proxy" i = .ok (o.map correction_coefficient) := by
  unfold applyCorrection at hAC
  unfold getCell at hCell ⊢
  cases hgc : getCol df "Modified VB Age" with
  | error e => rw [hgc] at hCell; simp at hCell
  | ok col =>
    rw [hgc] at hAC hCell
    simp only [Except.ok.injEq] at hAC hCell
    subst hAC
    simp only [getCol_setCol_self]
    rw [List.getElem?_map, option_join_map, hCell]

/-- C3 counterexample: a row whose fork length is missing while its total
length is present is NOT imputed when the `FL (mm)` column exists — the
Normalizer leaves the whole frame unchanged, so the row's fork length stays
missing instead of becoming `(369.4 - 3.472) / 1.2533`. -/
theorem normalizer_row_level_cex :
    imputeFL dfC3 = .ok dfC3 ∧
    getCell dfC3 "FL (mm)" 0 = .ok none ∧
    getCell dfC3 "TL (mm)" 0 = .ok (some 369.4) ∧
    (none : Option ℝ) ≠ some ((369.4 - 3.472) / 1.2533) := by
  refine ⟨?_, ?_, ?_, by simp⟩ <;>
    simp [imputeFL, dfC3, getCell, getCol, lookupCol]

/-- C3 (amended): the imputation is column-level, not row-level — when the
`FL (mm)` column is present the Normalizer changes nothing at all, even for
rows whose fork-length value is missing; only when the column is entirely
absent is every row's fork length derived from `TL (mm)` via
`(TL - 3.472) / 1.2533` (with a missing total length giving a missing fork
length). -/
theorem normalizer_column_level :
    (∀ df : Frame, (lookupCol "FL (mm)" df.numCols).isSome → imputeFL df = .ok df) ∧
    (∀ df : Frame, ∀ tl : List (Option ℝ), lookupCol "FL (mm)" df.numCols = none →
      lookupCol "TL (mm)" df.numCols = some tl →
      imputeFL df =
        .ok (setCol df "FL (mm)" (tl.map (Option.map fun t => (t - 3.472) / 1.2533))) ∧
      ∀ i : Nat,
        getCell (setCol df "FL (mm)" (tl.map (Option.map fun t => (t - 3.472) / 1.2533)))
          "FL (mm)" i = .ok ((tl[i]?.join).map fun t => (t - 3.472) / 1.2533)) := by
  refine ⟨fun df h => ?_, fun df tl h1 h2 => ⟨?_, fun i => ?_⟩⟩
  · unfold imputeFL
    cases hl : lookupCol "FL (mm)" df.numCols with
    | none => rw [hl] at h; simp at h
    | some col => rfl
  · unfold imputeFL
    rw [h1, h2]
  · unfold getCell
    simp only [getCol_setCol_self]
    rw [List.getElem?_map, option_join_map]

/-- C3 witness: a frame whose `FL (mm)` column is absent has every fork
length derived from the total length. -/
theorem normalizer_column_level_witness :
    lookupCol "FL (mm)" dfC4.numCols = none ∧
    lookupCol "TL (mm)" dfC4.numCols = some [some 369.4] ∧
    imputeFL dfC4 =
      .ok (setCol dfC4 "FL (mm)" ([some 369.4].map (Option.map fun t => (t - 3.472) / 1.2533))) ∧
    getCell (setCol dfC4 "FL (mm)" ([some 369.4].map (Option.map fun t => (t - 3.472) / 1.2533)))
      "FL (mm)" 0 = .ok (some ((369.4 - 3.472) / 1.2533)) := by
  have h := normalizer_column_level.2 dfC4 [some 369.4]
    (by simp [dfC4, lookupCol]) (by simp [dfC4, lookupCol])
  exact ⟨by simp [dfC4, lookupCol], by simp [dfC4, lookupCol], h.1, by simpa using h.2 0⟩

/-- C4 (code bug): on a schema-valid frame that supplies `Sex` and only a
total-length column, the run does not complete — the imputation writes the
column `FL (mm)` but `calculate_age` reads `FL (cm)`, so the age stage
raises `KeyError` on the very first sexed row. -/
theorem pipeline_tl_only_keyerror :
    pipeline dfC4 = .error ("KeyError: " ++ "FL (cm)") := by
  simp [pipeline, imputeFL, dfC4, lookupCol, setCol, delCol, applyAges, computeAges,
    calculate_age, getCell, getCol, List.range_succ]

/-- C6: a missing uncorrected VB age propagates — an unrecognized (or
missing) sex yields `ok none` from `calculate_age`, and a missing
`Modified VB Age` cell yields a missing `Age Corrected Proxy` cell; every
case returns a value, never an error. -/
theorem null_propagation :
    (∀ df : Frame, ∀ i : Nat, (df.sexCol[i]?).join = none →
      calculate_age df i = .ok none) ∧
    (∀ df : Frame, ∀ i : Nat, ∀ s : String, (df.sexCol[i]?).join = some s →
      s ≠ "Male" → s ≠ "Female" → calculate_age df i = .ok none) ∧
    (∀ df df2 : Frame, ∀ i : Nat, applyCorrection df = .ok df2 →
      getCell df "Modified VB Age" i = .ok none →
      getCell df2 "Age Corrected Proxy" i = .ok none) := by
  refine ⟨fun df i h => ?_, fun df i s hs hm hf => ?_, fun df df2 i h1 h2 => ?_⟩
  · unfold calculate_age
    rw [h]
  · unfold calculate_age
    simp only [hs, if_neg hm, if_neg hf]
  · simpa using applyCorrection_cell df df2 i none h1 h2

/-- C6 witness: one row with sex `unknown` and a missing uncorrected age. -/
theorem null_propagation_witness :
    calculate_age df6 0 = .ok none ∧
    applyCorrection df6 = .ok df6c ∧
    getCell df6c "Age Corrected Proxy" 0 = .ok none :=
  ⟨null_propagation.2.1 df6 0 "unknown" (by simp [df6]) (by decide) (by decide),
    by simp [applyCorrection, df6, df6c, getCol, lookupCol, setCol, delCol],
    null_propagation.2.2 df6 df6c 0
      (by simp [applyCorrection, df6, df6c, getCol, lookupCol, setCol, delCol])
      (by simp [getCell, getCol, df6, lookupCol])⟩

/-- C10: the corrector applies no positivity filter — every non-missing
uncorrected age at most `16.971951358327846 / 0.5910115884370238` is mapped
to a non-positive corrected age, and it is kept as a value (not replaced by
the missing marker). -/
theorem corrector_no_positivity_filter (m : ℝ)
    (hm : m ≤ 16.971951358327846 / 0.5910115884370238) :
    correction_coefficient m ≤ 0 ∧
    ∀ df df2 : Frame, ∀ i : Nat, applyCorrection df = .ok df2 →
      getCell df "Modified VB Age" i = .ok (some m) →
      getCell df2 "Age Corrected Proxy" i = .ok (some (correction_coefficient m)) := by
  constructor
  · have e1 : (0.5910115884370238 : ℝ) = 5910115884370238 / 10 ^ 16 := by norm_num
    have e2 : (16.971951358327846 : ℝ) = 16971951358327846 / 10 ^ 15 := by norm_num
    have h2 : m * (5910115884370238 / 10 ^ 16 : ℝ) ≤ 16971951358327846 / 10 ^ 15 := by
      rw [← e1, ← e2]
      exact (le_div_iff₀ (by norm_num)).mp hm
    unfold correction_coefficient
    rw [e1, e2]
    linarith
  · intro df df2 i h1 h2
    simpa using applyCorrection_cell df df2 i (some m) h1 h2

/-- C10 witness at uncorrected age 0, mapped to the negative intercept. -/
theorem corrector_no_positivity_filter_witness :
    (0 : ℝ) ≤ 16.971951358327846 / 0.5910115884370238 ∧
    correction_coefficient 0 ≤ 0 ∧
    getCell df10c "Age Corrected Proxy" 0 = .ok (some (correction_coefficient 0)) :=
  ⟨by norm_num, (corrector_no_positivity_filter 0 (by norm_num)).1,
    (corrector_no_positivity_filter 0 (by norm_num)).2 df10 df10c 0
      (by simp [applyCorrection, df10, df10c, getCol, lookupCol, setCol, delCol])
      (by simp [getCell, getCol, df10, lookupCol])⟩

/-! ## Claim C9 -/

/-- C9: the precondition `0 < FL` is not enforced — every non-positive fork
length above `-49 * L8` still produces a finite positive age, not the missing
marker; in particular `FL = 0` for a male yields `ln(1/50) / (-0.16)`, about
24.45 years. -/
theorem nonpositive_length_unchecked :
    (∀ FL : ℝ, -49 * 264.2 < FL → FL ≤ 0 →
      calculate_male_age FL = some (Real.log ((1 / 50) * (1 - FL / 264.2)) / (-0.16)) ∧
        0 < Real.log ((1 / 50) * (1 - FL / 264.2)) / (-0.16)) ∧
    (∀ FL : ℝ, -49 * 323.9 < FL → FL ≤ 0 →
      calculate_female_age FL = some (Real.log ((1 / 50) * (1 - FL / 323.9)) / (-0.11)) ∧
        0 < Real.log ((1 / 50) * (1 - FL / 323.9)) / (-0.11)) ∧
    calculate_male_age 0 = some (Real.log (1 / 50) / (-0.16)) ∧
    |Real.log (1 / 50) / (-0.16) - 24.45| < 0.01 := by
  refine ⟨fun FL h1 h2 => ?_, fun FL h1 h2 => ?_, ?_, ?_⟩
  · have e : (264.2 : ℝ) = 2642 / 10 := by norm_num
    exact male_age_some FL (by rw [e]; linarith) (by rw [e] at h1 ⊢; linarith)
  · have e : (323.9 : ℝ) = 3239 / 10 := by norm_num
    exact female_age_some FL (by rw [e]; linarith) (by rw [e] at h1 ⊢; linarith)
  · have h := (male_age_some 0 (by norm_num) (by norm_num)).1
    rw [h]
    norm_num
  · have hb := log_50_bounds
    rw [show (1 / 50 : ℝ) = 50⁻¹ by norm_num, Real.log_inv]
    rw [show -Real.log 50 / (-0.16) = Real.log 50 / (16 / 100) by
      rw [show (-0.16 : ℝ) = -(16 / 100) by norm_num]; ring]
    rw [abs_lt]
    constructor <;> linarith [hb.1, hb.2]

/-- C9 witness at FL = -1 for both sexes. -/
theorem nonpositive_length_unchecked_witness :
    (-49 * 264.2 : ℝ) < -1 ∧ (-49 * 323.9 : ℝ) < -1 ∧ (-1 : ℝ) ≤ 0 ∧
      calculate_male_age (-1) =
        some (Real.log ((1 / 50) * (1 - (-1) / 264.2)) / (-0.16)) ∧
      calculate_female_age (-1) =
        some (Real.log ((1 / 50) * (1 - (-1) / 323.9)) / (-0.11)) :=
  ⟨by norm_num, by norm_num, by norm_num,
    (nonpositive_length_unchecked.1 (-1) (by norm_num) (by norm_num)).1,
    (nonpositive_length_unchecked.2.1 (-1) (by norm_num) (by norm_num)).1⟩

/-! ## Claim C8: the notebook's reference scenarios -/

/-- C8: the female estimator sends FL = 292 to about 56.635017 years and
FL = 243 to about 48.174946 years, and the hardcoded correction sends a raw
VB age of 56.635017 to about 16.5 years. -/
theorem reference_scenarios_numeric :
    calculate_female_age 292 =
      some (Real.log ((1 / 50) * (1 - 292 / 323.9)) / (-0.11)) ∧
    |Real.log ((1 / 50) * (1 - 292 / 323.9)) / (-0.11) - 56.635017| < 1e-6 ∧
    calculate_female_age 243 =
      some (Real.log ((1 / 50) * (1 - 243 / 323.9)) / (-0.11)) ∧
    |Real.log ((1 / 50) * (1 - 243 / 323.9)) / (-0.11) - 48.174946| < 1e-6 ∧
    |correction_coefficient 56.635017 - 16.5| < 1e-9 := by
  have ha292 : ((1 / 50 : ℝ) * (1 - 292 / 323.9)) = 319 / 161950 := by norm_num
  have ha243 : ((1 / 50 : ℝ) * (1 - 243 / 323.9)) = 809 / 161950 := by norm_num
  refine ⟨(female_age_some 292 (by norm_num) (by norm_num)).1, ?_,
    (female_age_some 243 (by norm_num) (by norm_num)).1, ?_, ?_⟩
  · have hb := log_arg292_bounds
    rw [ha292]
    rw [show Real.log (319 / 161950) / (-0.11) = Real.log (319 / 161950) * (-(100 / 11)) by
      rw [show (-0.11 : ℝ) = -(11 / 100) by norm_num]; ring]
    rw [abs_lt]
    constructor <;> linarith [hb.1, hb.2]
  · have hb := log_arg243_bounds
    rw [ha243]
    rw [show Real.log (809 / 161950) / (-0.11) = Real.log (809 / 161950) * (-(100 / 11)) by
      rw [show (-0.11 : ℝ) = -(11 / 100) by norm_num]; ring]
    rw [abs_lt]
    constructor <;> linarith [hb.1, hb.2]
  · simp only [correction_coefficient]
    rw [abs_lt]
    constructor <;> norm_num

/-! ## Claims C5 and C7: the calibration fit -/

theorem map_const_sum (ys : List ℝ) (c : ℝ) : (ys.map fun _ => c).sum = ys.length * c := by
  induction ys with
  | nil => simp
  | cons a t ih =>
    simp [ih]
    ring

theorem linfit_const_x (ys : List ℝ) (x : ℝ) (h : ys ≠ []) :
    linfit (ys.map fun y => (x, y)) = (0, ys.sum / ys.length) := by
  have hn : ((ys.length : ℕ) : ℝ) ≠ 0 := by
    simpa using h
  have hfst : (ys.map fun y => (x, y)).map Prod.fst = ys.map (fun _ => x) := by
    rw [List.map_map]; rfl
  have hsnd : (ys.map fun y => (x, y)).map Prod.snd = ys := by
    rw [List.map_map]; simp
  simp only [linfit, List.length_map, hfst, hsnd, map_const_sum]
  have hxbar : (ys.length : ℝ) * x / (ys.length : ℝ) = x := by
    field_simp
  rw [hxbar]
  have hzero : ((ys.map fun y => (x, y)).map fun p => (p.1 - x) ^ 2).sum = 0 := by
    rw [List.map_map]
    have hcomp : ((fun p : ℝ × ℝ => (p.1 - x) ^ 2) ∘ fun y => (x, y)) = fun _ => (0 : ℝ) := by
      funext y; simp
    rw [hcomp, map_const_sum, mul_zero]
  rw [if_pos hzero]

/-- C5 counterexample: on a zero-variance calibration input (both
uncorrected VB ages equal to 5) the fit silently returns the concrete
slope/intercept pair (0, 2) instead of reporting a calibration error. -/
theorem calibrator_zero_variance_cex :
    linfit [((5 : ℝ), (1 : ℝ)), (5, 3)] = (0, 2) := by
  have h := linfit_const_x [1, 3] 5 (by simp)
  norm_num at h
  exact h

/-- C5 (amended): on zero-variance calibration input the fit does not report
an error — it silently produces slope 0 and intercept the mean of the
vertebral ages (the minimum-norm least-squares solution that sklearn's
`lstsq` returns on a centred all-zero design column). -/
theorem calibrator_zero_variance_fit (ys : List ℝ) (x : ℝ) (h : ys ≠ []) :
    linfit (ys.map fun y => (x, y)) = (0, ys.sum / ys.length) :=
  linfit_const_x ys x h

/-- C5 witness: the two-point zero-variance input at x = 7 yields the pair
(0, 3), the mean of the two vertebral ages. -/
theorem calibrator_zero_variance_fit_witness :
    ([2, 4] : List ℝ) ≠ [] ∧ linfit [((7 : ℝ), (2 : ℝ)), (7, 4)] = (0, 3) := by
  constructor
  · simp
  · have h := calibrator_zero_variance_fit [2, 4] 7 (by simp)
    norm_num at h
    exact h

/-- C7: with exactly two distinct reference pairs the fitted regression line
passes through both (uncorrected VB age, vertebral age) coordinates exactly:
both residuals vanish. -/
theorem calibration_two_point_exact (x1 y1 x2 y2 : ℝ) (h : x1 ≠ x2) :
    (linfit [(x1, y1), (x2, y2)]).1 * x1 + (linfit [(x1, y1), (x2, y2)]).2 = y1 ∧
    (linfit [(x1, y1), (x2, y2)]).1 * x2 + (linfit [(x1, y1), (x2, y2)]).2 = y2 := by
  have hd : x1 - x2 ≠ 0 := sub_ne_zero.mpr h
  have key : linfit [(x1, y1), (x2, y2)] =
      ((y1 - y2) / (x1 - x2),
        (y1 + y2) / 2 - (y1 - y2) / (x1 - x2) * ((x1 + x2) / 2)) := by
    simp only [linfit, List.map_cons, List.map_nil, List.sum_cons, List.sum_nil,
      List.length_cons, List.length_nil]
    push_cast
    split_ifs with hB
    · exfalso
      have hsq : (x1 - x2) ^ 2 = 0 := by linear_combination 2 * hB
      exact hd ((pow_eq_zero_iff (by norm_num)).mp hsq)
    · have hslope :
          ((x1 - (x1 + (x2 + 0)) / 2) * (y1 - (y1 + (y2 + 0)) / 2) +
            ((x2 - (x1 + (x2 + 0)) / 2) * (y2 - (y1 + (y2 + 0)) / 2) + 0)) /
          ((x1 - (x1 + (x2 + 0)) / 2) ^ 2 + ((x2 - (x1 + (x2 + 0)) / 2) ^ 2 + 0)) =
          (y1 - y2) / (x1 - x2) := by
        rw [div_eq_div_iff hB hd]
        ring
      rw [hslope]
      simp only [Prod.mk.injEq]
      refine ⟨trivial, ?_⟩
      field_simp
  rw [key]
  constructor
  · field_simp
    ring
  · field_simp
    ring

/-- C7 witness: the line through (1, 2) and (3, 10). -/
theorem calibration_two_point_exact_witness :
    (1 : ℝ) ≠ 3 ∧
    (linfit [((1 : ℝ), (2 : ℝ)), (3, 10)]).1 * 1 + (linfit [((1 : ℝ), (2 : ℝ)), (3, 10)]).2 = 2 ∧
    (linfit [((1 : ℝ), (2 : ℝ)), (3, 10)]).1 * 3 + (linfit [((1 : ℝ), (2 : ℝ)), (3, 10)]).2 = 10 :=
  ⟨by norm_num, (calibration_two_point_exact 1 2 3 10 (by norm_num)).1,
    (calibration_two_point_exact 1 2 3 10 (by norm_num)).2⟩
